import Mathlib

/-!
Verification development for the RAST corridor planning stack: a shallow
embedding of the planner supervisor, the baseline planner, the fake particle
risk map and the corridor optimization loop, with theorems settling the
stated behavioural properties. C++ floating point values are modelled by
exact rationals; out-of-bounds array reads and a missing return statement
(both undefined behaviour in the source language) are modelled by `Option`
and an explicit `undef` marker.
-/

/-- Three-component vector of exact rationals standing for the C++
`Eigen::Vector3d` / `Eigen::Vector3f` values. -/
abbrev V3 : Type := ℚ × ℚ × ℚ

/-- Zero vector, `Eigen::Vector3d::Zero()`. -/
def v3zero : V3 := (0, 0, 0)

namespace Planner

/-- Persistent planner state touched by `Planner::VelCallback`
(multi_planning.cpp): `_odom_vel`, `_odom_acc`, `_prev_t`, `_prev_vx`,
`_prev_vy`, `_prev_vz`. -/
structure VelState where
  odom_vel : V3
  odom_acc : V3
  prev_t : ℚ
  prev_vx : ℚ
  prev_vy : ℚ
  prev_vz : ℚ
deriving Repr, DecidableEq

/-- Dead zone of `VelCallback` (multi_planning.cpp lines 142-144): an
acceleration component with absolute value below 0.2 is zeroed. -/
def deadZone (a : ℚ) : ℚ := if |a| < 1/5 then 0 else a

/-- Per-axis clipping of `VelCallback` (multi_planning.cpp lines 146-152): the
component is clipped to `[-max_differentiated_current_a,
max_differentiated_current_a]`. -/
def clipTo (m a : ℚ) : ℚ := if a < -m then -m else if a > m then m else a

/-- Translation of `Planner::VelCallback` (multi_planning.cpp lines 127-160).
`maxA` is `_config.max_differentiated_current_a`, `v` the incoming
`msg.twist.linear`, `tnow` the value of `ros::Time::now().toSec()`. The flag
`is_vel_initialized` is a local variable initialized to `true` on every call,
so the `else` branch below (the finite-difference computation) is dead code;
it is kept here exactly as the source has it. -/
def VelCallback (maxA : ℚ) (s : VelState) (v : V3) (tnow : ℚ) : VelState :=
  let s1 := { s with odom_vel := v }
  let is_vel_initialized := true
  let s2 :=
    if is_vel_initialized then
      s1
    else
      let dt := tnow - s1.prev_t
      let a0 := deadZone ((s1.odom_vel.1 - s1.prev_vx) / dt)
      let a1 := deadZone ((s1.odom_vel.2.1 - s1.prev_vy) / dt)
      let a2 := deadZone ((s1.odom_vel.2.2 - s1.prev_vz) / dt)
      { s1 with odom_acc := (clipTo maxA a0, clipTo maxA a1, clipTo maxA a2) }
  { s2 with prev_t := tnow, prev_vx := v.1, prev_vy := v.2.1, prev_vz := v.2.2 }

/-- The acceleration update claim C1 describes, written from the spec to
compare against the code: first difference of velocity over the sample
interval, dead zone, then per-axis clipping. -/
def specDifferentiatedAcc (maxA : ℚ) (prev_v : V3) (prev_t : ℚ) (v : V3) (t : ℚ) : V3 :=
  let a0 := deadZone ((v.1 - prev_v.1) / (t - prev_t))
  let a1 := deadZone ((v.2.1 - prev_v.2.1) / (t - prev_t))
  let a2 := deadZone ((v.2.2 - prev_v.2.2) / (t - prev_t))
  (clipTo maxA a0, clipTo maxA a1, clipTo maxA a2)

/-- Planner state right after the constructor: previous velocities zeroed
(multi_planning.cpp lines 54-56). -/
def initVelState : VelState :=
  { odom_vel := v3zero, odom_acc := v3zero, prev_t := 0
    prev_vx := 0, prev_vy := 0, prev_vz := 0 }

end Planner

/-- Claim C1 (code bug in the source): `Planner::VelCallback` never updates the
stored acceleration, because the guard `is_vel_initialized` is a local
variable initialized to `true` on every call, making the differentiation
branch unreachable. First conjunct: the stored acceleration is unchanged by
every call. Second conjunct: at the failing input (velocity sample (1,0,0) at
t=1 following (0,0,0) at t=0, with `max_differentiated_current_a = 1`) the
update described by the claim yields (1,0,0). Third conjunct: feeding exactly
those two samples to the code leaves the stored acceleration at (0,0,0). -/
theorem velCallback_never_updates_acc :
    (∀ (maxA : ℚ) (s : Planner.VelState) (v : V3) (tnow : ℚ),
        (Planner.VelCallback maxA s v tnow).odom_acc = s.odom_acc) ∧
    Planner.specDifferentiatedAcc 1 v3zero 0 (1, 0, 0) 1 = (1, 0, 0) ∧
    (Planner.VelCallback 1 (Planner.VelCallback 1 Planner.initVelState v3zero 0)
        (1, 0, 0) 1).odom_acc = v3zero := by
  refine ⟨fun maxA s v tnow => rfl, ?_, rfl⟩
  simp [Planner.specDifferentiatedAcc, Planner.deadZone, Planner.clipTo, v3zero]
  norm_num

namespace FiniteStateMachine

/-- The supervisor states, in the order of `state_str` in
`FiniteStateMachine::FSMPrintState` (plan_manager.cpp lines 215-216). -/
inductive FSMStatus where
  | INIT
  | WAIT_TARGET
  | NEW_PLAN
  | REPLAN
  | EXEC_TRAJ
  | EMERGENCY_REPLAN
  | GOAL_REACHED
  | EXIT
deriving Repr, DecidableEq

/-- `FiniteStateMachine::isTrajectorySafe` (plan_manager.cpp line 289): its
whole body is `return true`. -/
def isTrajectorySafe : Bool := true

/-- Boolean inputs one tick of `FSMCallback` reads. `trajSafe` is the value
the trajectory-safety check returns when the `EXEC_TRAJ` branch calls it (the
source binds it to a local that is never read). -/
structure FSMEnv where
  inputLost : Bool
  goalReceived : Bool
  execTriggered : Bool
  timeLapse1 : Bool
  replanLapse : Bool
  goalReached : Bool
  planSuccess : Bool
  trajSafe : Bool
deriving Repr, DecidableEq

/-- Result of one tick of the state machine: the next `_status` and whether
`publishTrajectory` ran during the tick. -/
structure FSMOut where
  next : FSMStatus
  published : Bool
deriving Repr, DecidableEq

/-- Translation of one `switch` step of `FiniteStateMachine::FSMCallback`
(plan_manager.cpp lines 66-199). In `NEW_PLAN`, the `localReplan` call is
commented out so `is_success` stays false and nothing is published. In
`EXEC_TRAJ`, the result of `isTrajectorySafe()` is bound and never used: the
transition to `EMERGENCY_REPLAN` is commented out, and the two live tests run
in sequence (a lapsed replan timer sets `REPLAN`, then a reached goal
overrides with `GOAL_REACHED`). The whole `EMERGENCY_REPLAN` case is
commented out as well, so that state falls to the `default` label and stays
unchanged. -/
def FSMCallback (st : FSMStatus) (e : FSMEnv) : FSMOut :=
  match st with
  | .INIT => ⟨.WAIT_TARGET, false⟩
  | .WAIT_TARGET =>
      if !e.inputLost && e.goalReceived then ⟨.REPLAN, false⟩ else ⟨.WAIT_TARGET, false⟩
  | .NEW_PLAN =>
      if e.inputLost then ⟨.WAIT_TARGET, false⟩
      else
        let is_success := false
        let is_safe := true
        let published := is_success && is_safe
        if e.execTriggered then ⟨.EXEC_TRAJ, published⟩ else ⟨.NEW_PLAN, published⟩
  | .EXEC_TRAJ =>
      if e.inputLost then ⟨.WAIT_TARGET, false⟩
      else
        let _is_safe := e.trajSafe
        let s1 := if e.replanLapse then FSMStatus.REPLAN else FSMStatus.EXEC_TRAJ
        let s2 := if e.goalReached then FSMStatus.GOAL_REACHED else s1
        ⟨s2, false⟩
  | .REPLAN =>
      if e.inputLost then ⟨.WAIT_TARGET, false⟩
      else if e.planSuccess && !e.goalReached then ⟨.EXEC_TRAJ, true⟩
      else if e.goalReached then ⟨.GOAL_REACHED, false⟩
      else ⟨.REPLAN, false⟩
  | .EMERGENCY_REPLAN => ⟨.EMERGENCY_REPLAN, false⟩
  | .GOAL_REACHED => ⟨.WAIT_TARGET, false⟩
  | .EXIT => ⟨.EXIT, false⟩

/-- Concrete `EXEC_TRAJ` tick inputs on which claim C2 fails: input present,
replan timer not lapsed, goal not reached, and the safety check reporting
false. -/
def unsafeEnv : FSMEnv :=
  { inputLost := false, goalReceived := true, execTriggered := true
    timeLapse1 := false, replanLapse := false, goalReached := false
    planSuccess := true, trajSafe := false }

end FiniteStateMachine

/-- Claim C2 is false on the code: it is not the case that every step from
`EXEC_TRAJ` with the trajectory-safety check returning false moves to
`EMERGENCY_REPLAN`. At the concrete inputs `unsafeEnv` (safety check false,
input present, replan timer not lapsed, goal not reached) the machine stays
in `EXEC_TRAJ`, since the emergency transition is commented out. -/
theorem execTraj_unsafe_no_emergency_transition :
    ¬ (∀ e : FiniteStateMachine.FSMEnv, e.trajSafe = false →
        (FiniteStateMachine.FSMCallback .EXEC_TRAJ e).next = .EMERGENCY_REPLAN) := by
  intro h
  have hc := h FiniteStateMachine.unsafeEnv rfl
  exact absurd hc (by decide)

/-- Claim C2 (amended): the trajectory-safety check constantly returns true,
and a step from `EXEC_TRAJ` only ever goes to `WAIT_TARGET` (input lost),
`GOAL_REACHED` (goal reached), `REPLAN` (replan timer lapsed) or stays in
`EXEC_TRAJ` — whatever the safety check would report, the supervisor never
enters `EMERGENCY_REPLAN`. -/
theorem execTraj_successors :
    FiniteStateMachine.isTrajectorySafe = true ∧
    ∀ e : FiniteStateMachine.FSMEnv,
      (FiniteStateMachine.FSMCallback .EXEC_TRAJ e).next = .WAIT_TARGET ∨
      (FiniteStateMachine.FSMCallback .EXEC_TRAJ e).next = .GOAL_REACHED ∨
      (FiniteStateMachine.FSMCallback .EXEC_TRAJ e).next = .REPLAN ∨
      (FiniteStateMachine.FSMCallback .EXEC_TRAJ e).next = .EXEC_TRAJ := by
  refine ⟨rfl, fun e => ?_⟩
  rcases e with ⟨il, _, _, _, rl, gr, _, _⟩
  cases il <;> cases rl <;> cases gr <;> simp [FiniteStateMachine.FSMCallback]

namespace BaselinePlanner

/-- Outcomes of the external calls one `BaselinePlanner::plan` cycle makes
(baseline.cpp): the two `a_star_->search` return codes (the second one used
only when the first is 0), whether `BezierOpt::optimize` succeeded, and the
two MADER deconfliction checks. These callees live outside the staged
sources, so their results are free inputs of the model. `noPathCode` is the
`ASTAR_RET` value `NO_PATH` from the search header (not among the staged
sources), kept as an abstract integer code. -/
structure PlanOracle where
  rst1 : ℤ
  rst2 : ℤ
  noPathCode : ℤ
  optSuccess : Bool
  safeAfterOpt : Bool
  safeAfterChk : Bool

/-- The search return code after the retry of baseline.cpp lines 121-127. -/
def searchRst (o : PlanOracle) : ℤ := if o.rst1 = 0 then o.rst2 else o.rst1

/-- Translation of the decision flow of `BaselinePlanner::plan` (baseline.cpp
lines 114-222): return false on `NO_PATH`, on failed optimization, on failed
`isSafeAfterOpt`, and on failed `isSafeAfterChk`; return true only when all
of them pass. -/
def plan (o : PlanOracle) : Bool :=
  if searchRst o = o.noPathCode then false
  else if !o.optSuccess then false
  else if !o.safeAfterOpt then false
  else if !o.safeAfterChk then false
  else true

/-- Data `BaselinePlanner::plan` hands to corridor generation
(`sfc_gen::convexCover`) and to the optimizer (baseline.cpp lines 141-181):
the possibly truncated route and the rows of `final_state`. -/
structure PlanCallData where
  route : List V3
  finalPos : V3
  finalVel : V3
  finalAcc : V3
deriving Repr, DecidableEq

/-- Translation of the route truncation and boundary-state setup in
`BaselinePlanner::plan`: `route.erase(route.begin() + 4, route.end())` when
the searched path has more than 4 nodes (keeping the first 4), then
`local_goal = route[route.size() - 1]` with zero final velocity and
acceleration. -/
def planCallData (path : List V3) : PlanCallData :=
  let route := if 4 < path.length then path.take 4 else path
  { route := route
    finalPos := route.getD (route.length - 1) v3zero
    finalVel := v3zero
    finalAcc := v3zero }

/-- Concrete five-node searched path used as the witness input. -/
def fiveNodePath : List V3 := [(0, 0, 1), (1, 0, 1), (2, 0, 1), (3, 0, 1), (4, 0, 1)]

end BaselinePlanner

/-- Claim C3: a candidate trajectory is committed only if both deconfliction
checks pass. `plan` returns true only when `isSafeAfterOpt` and
`isSafeAfterChk` both returned true; when either of them fails, the plan call
returns false, and a `REPLAN` tick whose `is_success` is that value publishes
nothing. -/
theorem plan_commits_only_if_both_checks_pass :
    ∀ (o : BaselinePlanner.PlanOracle) (e : FiniteStateMachine.FSMEnv),
      (BaselinePlanner.plan o = true →
        o.safeAfterOpt = true ∧ o.safeAfterChk = true) ∧
      ((o.safeAfterOpt = false ∨ o.safeAfterChk = false) →
        BaselinePlanner.plan o = false ∧
        (e.planSuccess = BaselinePlanner.plan o →
          (FiniteStateMachine.FSMCallback .REPLAN e).published = false)) := by
  intro o e
  constructor
  · intro h
    unfold BaselinePlanner.plan at h
    constructor
    · by_contra hc
      simp only [Bool.not_eq_true] at hc
      simp [hc] at h
    · by_contra hc
      simp only [Bool.not_eq_true] at hc
      simp [hc] at h
  · intro h
    have hfalse : BaselinePlanner.plan o = false := by
      unfold BaselinePlanner.plan
      rcases h with h | h <;> simp [h]
    refine ⟨hfalse, fun hps => ?_⟩
    rcases e with ⟨il, _, _, _, _, gr, ps, _⟩
    simp only at hps
    subst hps
    rw [hfalse]
    cases il <;> cases gr <;> simp [FiniteStateMachine.FSMCallback, hfalse]

/-- Claim C10: when the searched reference path has more than 4 nodes, the
route passed to corridor generation and to the optimizer is exactly the first
4 path nodes, and the optimizer's final boundary state is the 4th path node
with zero final velocity and acceleration. -/
theorem planCallData_truncates_route (path : List V3) (h : 4 < path.length) :
    (BaselinePlanner.planCallData path).route = path.take 4 ∧
    (BaselinePlanner.planCallData path).route.length = 4 ∧
    (BaselinePlanner.planCallData path).finalPos = path.getD 3 v3zero ∧
    (BaselinePlanner.planCallData path).finalVel = v3zero ∧
    (BaselinePlanner.planCallData path).finalAcc = v3zero := by
  rcases path with _ | ⟨a, _ | ⟨b, _ | ⟨c, _ | ⟨d, rest⟩⟩⟩⟩ <;>
    simp_all [BaselinePlanner.planCallData, List.getD]

/-- Witness for claim C10: the five-node path has more than 4 nodes and the
theorem's conclusions evaluate as stated on it. -/
theorem planCallData_truncates_route_witness :
    4 < BaselinePlanner.fiveNodePath.length ∧
    ((BaselinePlanner.planCallData BaselinePlanner.fiveNodePath).route =
        BaselinePlanner.fiveNodePath.take 4 ∧
      (BaselinePlanner.planCallData BaselinePlanner.fiveNodePath).route.length = 4 ∧
      (BaselinePlanner.planCallData BaselinePlanner.fiveNodePath).finalPos =
        BaselinePlanner.fiveNodePath.getD 3 v3zero ∧
      (BaselinePlanner.planCallData BaselinePlanner.fiveNodePath).finalVel = v3zero ∧
      (BaselinePlanner.planCallData BaselinePlanner.fiveNodePath).finalAcc = v3zero) :=
  ⟨by decide, planCallData_truncates_route BaselinePlanner.fiveNodePath (by decide)⟩

namespace FakeParticleRiskVoxel

/-- Compile-time map shape and the query parameters of the fake risk map:
`MAP_LENGTH_VOXEL_NUM`, `MAP_WIDTH_VOXEL_NUM`, `MAP_HEIGHT_VOXEL_NUM` and
`PREDICTION_TIMES` come from `dsp_dynamic.h`, which is not among the staged
sources, so they are kept as parameters; `resolution`, `timeResolution` and
`riskThreshold` are the fields `resolution_`, `time_resolution_` and
`risk_threshold_`. -/
structure MapParams where
  lenVox : ℕ
  widVox : ℕ
  heiVox : ℕ
  predTimes : ℕ
  resolution : ℚ
  timeResolution : ℚ
  riskThreshold : ℚ

/-- The half range `local_update_range_x_ = MAP_LENGTH_VOXEL_NUM / 2 *
resolution_` (fake_particle_risk_voxel.cpp line 27; the division is C++
integer division). -/
def localRangeX (P : MapParams) : ℚ := ((P.lenVox / 2 : ℕ) : ℚ) * P.resolution

/-- The half range `local_update_range_y_` (fake_particle_risk_voxel.cpp
line 28). -/
def localRangeY (P : MapParams) : ℚ := ((P.widVox / 2 : ℕ) : ℚ) * P.resolution

/-- The half range `local_update_range_z_` (fake_particle_risk_voxel.cpp
line 29). -/
def localRangeZ (P : MapParams) : ℚ := ((P.heiVox / 2 : ℕ) : ℚ) * P.resolution

/-- Modelled from the spec: `getVoxelRelIndex` of the fake map header (the
header is not among the staged sources) maps a map-frame position to the
integer coordinates of the voxel containing it on the spec's fixed-dimension
grid at resolution ρ, mirroring `RiskVoxel::getVoxelIndex`
(risk_voxel.h lines 133-138) with mathematical flooring. -/
def getVoxelRelIndex (P : MapParams) (p : V3) : ℤ × ℤ × ℤ :=
  (⌊(p.1 + localRangeX P) / P.resolution⌋,
   ⌊(p.2.1 + localRangeY P) / P.resolution⌋,
   ⌊(p.2.2 + localRangeZ P) / P.resolution⌋)

/-- Modelled from the spec: the voxel-index overload of `isInRange` used by
`getClearOcccupancy` (header not among the staged sources): the integer
coordinates lie inside the grid `(Lx × Ly × Lz)`. -/
def isInRangeI (P : MapParams) (v : ℤ × ℤ × ℤ) : Bool :=
  decide (0 ≤ v.1) && decide (v.1 < (P.lenVox : ℤ)) &&
  decide (0 ≤ v.2.1) && decide (v.2.1 < (P.widVox : ℤ)) &&
  decide (0 ≤ v.2.2) && decide (v.2.2 < (P.heiVox : ℤ))

/-- Row-major flat voxel index with z slowest, as in `RiskVoxel::getVoxelIndex`
(risk_voxel.h line 137): `z·Lx·Ly + y·Lx + x`. -/
def getVoxelIndex (P : MapParams) (v : ℤ × ℤ × ℤ) : ℕ :=
  v.2.2.toNat * P.lenVox * P.widVox + v.2.1.toNat * P.lenVox + v.1.toNat

/-- State of the fake map read by the occupancy queries: the map center
`pose_`, the risk tensor `risk_maps_[VOXEL_NUM][PREDICTION_TIMES]` (read as a
total function; a slice index outside `[0, PREDICTION_TIMES)` has no stored
value, and reading it is an out-of-bounds access), and the inflation kernel
`inflate_kernel_`. -/
structure FakeMapState where
  pose : V3
  riskMaps : ℕ → ℕ → ℚ
  kernel : List (ℤ × ℤ × ℤ)

/-- The voxel coordinates of the query position relative to the map center,
`getVoxelRelIndex(pos.cast<float>() - pose_)` (fake_particle_risk_voxel.cpp
lines 265-266). -/
def relVoxel (P : MapParams) (m : FakeMapState) (pos : V3) : ℤ × ℤ × ℤ :=
  getVoxelRelIndex P (pos.1 - m.pose.1, pos.2.1 - m.pose.2.1, pos.2.2 - m.pose.2.2)

/-- The kernel-summation loop of `getClearOcccupancy(pos, t)`
(fake_particle_risk_voxel.cpp lines 271-282): offsets falling out of the
spatial range are skipped, slice-`t` risks are accumulated, and the loop
returns 1 (collision) as soon as the sum exceeds the threshold, else 0. A
read of `risk_maps_[idx][t]` with `t` outside `[0, PREDICTION_TIMES)` is out
of bounds, so the translation yields `none` (no defined result) there. -/
def kernelScan (P : MapParams) (m : FakeMapState) (pos_i : ℤ × ℤ × ℤ) (t : ℤ) :
    List (ℤ × ℤ × ℤ) → ℚ → Option ℤ
  | [], _ => some 0
  | e :: rest, sum =>
    let p := (pos_i.1 + e.1, pos_i.2.1 + e.2.1, pos_i.2.2 + e.2.2)
    if !isInRangeI P p then kernelScan P m pos_i t rest sum
    else if t < 0 ∨ (P.predTimes : ℤ) ≤ t then none
    else
      let sum1 := sum + m.riskMaps (getVoxelIndex P p) t.toNat
      if P.riskThreshold < sum1 then some 1 else kernelScan P m pos_i t rest sum1

/-- Translation of the integer-time overload
`FakeParticleRiskVoxel::getClearOcccupancy(pos, t)`
(fake_particle_risk_voxel.cpp lines 263-283): out of spatial range gives -1,
otherwise the inflation-kernel scan decides 0 (free) or 1 (occupied). -/
def getClearOcccupancyT (P : MapParams) (m : FakeMapState) (pos : V3) (t : ℤ) : Option ℤ :=
  if !isInRangeI P (relVoxel P m pos) then some (-1)
  else kernelScan P m (relVoxel P m pos) t m.kernel 0

/-- The slice-index clamp of the double-time overload
(fake_particle_risk_voxel.cpp lines 298 and 300): values above
`PREDICTION_TIMES` are capped at `PREDICTION_TIMES` — not at
`PREDICTION_TIMES - 1`, the largest stored slice. -/
def clampSlice (P : MapParams) (x : ℤ) : ℤ :=
  if x > (P.predTimes : ℤ) then (P.predTimes : ℤ) else x

/-- The slice index `tc` of the double-time overload: the clamped
`ceil(dt / time_resolution_)` (fake_particle_risk_voxel.cpp lines 297-298). -/
def ceilSlice (P : MapParams) (dt : ℚ) : ℤ := clampSlice P ⌈dt / P.timeResolution⌉

/-- The slice index `tf` of the double-time overload: the clamped
`floor(dt / time_resolution_)` (fake_particle_risk_voxel.cpp lines 299-300). -/
def floorSlice (P : MapParams) (dt : ℚ) : ℤ := clampSlice P ⌊dt / P.timeResolution⌋

/-- Translation of the double-time overload
`FakeParticleRiskVoxel::getClearOcccupancy(pos, dt)`
(fake_particle_risk_voxel.cpp lines 296-310): query the two bracketing
clamped slices (`ret0` at `tc` first, then `ret1` at `tf`), return -1 when
either is -1, 0 when both are 0, else 1. An undefined inner result (an
out-of-bounds slice read) propagates as `none`. -/
def getClearOcccupancyD (P : MapParams) (m : FakeMapState) (pos : V3) (dt : ℚ) : Option ℤ :=
  match getClearOcccupancyT P m pos (ceilSlice P dt),
        getClearOcccupancyT P m pos (floorSlice P dt) with
  | some ret0, some ret1 =>
      if ret0 = -1 ∨ ret1 = -1 then some (-1)
      else if ret0 = 0 ∧ ret1 = 0 then some 0
      else some 1
  | _, _ => none

/-- The kernel scan never produces the out-of-range marker -1. -/
theorem kernelScan_ne_neg_one (P : MapParams) (m : FakeMapState) (pos_i : ℤ × ℤ × ℤ)
    (t : ℤ) : ∀ (ks : List (ℤ × ℤ × ℤ)) (sum : ℚ),
    kernelScan P m pos_i t ks sum ≠ some (-1) := by
  intro ks
  induction ks with
  | nil => intro sum; simp [kernelScan]
  | cons e rest ih =>
    intro sum
    simp only [kernelScan]
    split
    · exact ih sum
    · split
      · simp
      · split
        · simp
        · exact ih _

/-- The kernel scan does not depend on which out-of-bounds slice index is
used: any two slice indices outside `[0, PREDICTION_TIMES)` give the same
(undefined or defined) result. -/
theorem kernelScan_oob_congr (P : MapParams) (m : FakeMapState) (pos_i : ℤ × ℤ × ℤ)
    (t1 t2 : ℤ) (h1 : t1 < 0 ∨ (P.predTimes : ℤ) ≤ t1)
    (h2 : t2 < 0 ∨ (P.predTimes : ℤ) ≤ t2) :
    ∀ (ks : List (ℤ × ℤ × ℤ)) (sum : ℚ),
    kernelScan P m pos_i t1 ks sum = kernelScan P m pos_i t2 ks sum := by
  intro ks
  induction ks with
  | nil => intro sum; rfl
  | cons e rest ih =>
    intro sum
    simp only [kernelScan]
    split
    · exact ih sum
    · simp [h1, h2]

/-- Clamping the slice index does not change the integer-time query result:
either the index is below the cap and unchanged, or both the clamped and the
unclamped index are out-of-bounds slices and scan identically. -/
theorem getClearOcccupancyT_clamp (P : MapParams) (m : FakeMapState) (pos : V3)
    (x : ℤ) : getClearOcccupancyT P m pos (clampSlice P x) =
      getClearOcccupancyT P m pos x := by
  unfold clampSlice
  split
  · next hx =>
    unfold getClearOcccupancyT
    split
    · rfl
    · exact kernelScan_oob_congr P m _ _ _ (Or.inr le_rfl) (Or.inr (le_of_lt hx)) _ _
  · rfl

/-- The integer-time query returns -1 exactly when the query position falls
out of the spatial range. -/
theorem getClearOcccupancyT_neg_one_iff (P : MapParams) (m : FakeMapState) (pos : V3)
    (t : ℤ) : getClearOcccupancyT P m pos t = some (-1) ↔
      isInRangeI P (relVoxel P m pos) = false := by
  unfold getClearOcccupancyT
  split
  · next h =>
    simp only [Bool.not_eq_true'] at h
    simp [h]
  · next h =>
    simp only [Bool.not_eq_true'] at h
    simp only [Bool.not_eq_false] at h
    simp [h, kernelScan_ne_neg_one]

end FakeParticleRiskVoxel

/-- Claim C4: the double-time query is the union of the two bracketing
slices. For every query position and fractional time offset,
`getClearOcccupancy(x, dt)` returns free (0) exactly when both the
`floor(dt/Δt_pred)` and the `ceil(dt/Δt_pred)` slice queries at `x` return
free, and it returns the distinguished out-of-range result (-1) exactly when
either bracketing slice query is out of range — out-of-range dominates the
free/occupied answer. -/
theorem getClearOcccupancyD_is_union_of_bracketing_slices :
    ∀ (P : FakeParticleRiskVoxel.MapParams) (m : FakeParticleRiskVoxel.FakeMapState)
      (pos : V3) (dt : ℚ),
      (FakeParticleRiskVoxel.getClearOcccupancyD P m pos dt = some 0 ↔
        (FakeParticleRiskVoxel.getClearOcccupancyT P m pos ⌊dt / P.timeResolution⌋ = some 0 ∧
         FakeParticleRiskVoxel.getClearOcccupancyT P m pos ⌈dt / P.timeResolution⌉ = some 0)) ∧
      (FakeParticleRiskVoxel.getClearOcccupancyD P m pos dt = some (-1) ↔
        (FakeParticleRiskVoxel.getClearOcccupancyT P m pos ⌊dt / P.timeResolution⌋ = some (-1) ∨
         FakeParticleRiskVoxel.getClearOcccupancyT P m pos ⌈dt / P.timeResolution⌉ = some (-1))) := by
  intro P m pos dt
  have hceil := FakeParticleRiskVoxel.getClearOcccupancyT_clamp P m pos ⌈dt / P.timeResolution⌉
  have hfloor := FakeParticleRiskVoxel.getClearOcccupancyT_clamp P m pos ⌊dt / P.timeResolution⌋
  unfold FakeParticleRiskVoxel.getClearOcccupancyD
  unfold FakeParticleRiskVoxel.ceilSlice FakeParticleRiskVoxel.floorSlice
  rw [hceil, hfloor]
  by_cases hr : FakeParticleRiskVoxel.isInRangeI P (FakeParticleRiskVoxel.relVoxel P m pos) = false
  · have hall : ∀ t : ℤ, FakeParticleRiskVoxel.getClearOcccupancyT P m pos t = some (-1) :=
      fun t => (FakeParticleRiskVoxel.getClearOcccupancyT_neg_one_iff P m pos t).mpr hr
    rw [hall, hall]
    simp
  · have hno : ∀ t : ℤ, FakeParticleRiskVoxel.getClearOcccupancyT P m pos t ≠ some (-1) := by
      intro t hc
      exact hr ((FakeParticleRiskVoxel.getClearOcccupancyT_neg_one_iff P m pos t).mp hc)
    rcases hc : FakeParticleRiskVoxel.getClearOcccupancyT P m pos ⌈dt / P.timeResolution⌉ with
      _ | r0 <;>
      rcases hf : FakeParticleRiskVoxel.getClearOcccupancyT P m pos ⌊dt / P.timeResolution⌋ with
        _ | r1
    · simp
    · have h1 : r1 ≠ -1 := by
        intro h; exact hno _ (by rw [hf, h])
      simp [h1]
    · have h0 : r0 ≠ -1 := by
        intro h; exact hno _ (by rw [hc, h])
      simp [h0]
    · have h0 : r0 ≠ -1 := by
        intro h; exact hno _ (by rw [hc, h])
      have h1 : r1 ≠ -1 := by
        intro h; exact hno _ (by rw [hf, h])
      constructor
      · constructor
        · by_cases h00 : r0 = 0 ∧ r1 = 0
          · simp [h0, h1, h00.1, h00.2]
          · intro hcontra
            simp [h0, h1, h00] at hcontra
        · by_cases h00 : r0 = 0 ∧ r1 = 0
          · simp [h0, h1, h00.1, h00.2]
          · intro hcontra
            rcases hcontra with ⟨e1, e0⟩
            exact absurd ⟨by injection e0, by injection e1⟩ h00
      · constructor
        · intro hcontra
          by_cases h00 : r0 = 0 ∧ r1 = 0 <;> simp [h0, h1, h00] at hcontra
        · intro hcontra
          rcases hcontra with e | e
          · exact absurd (by injection e) h1
          · exact absurd (by injection e) h0

namespace FakeParticleRiskVoxel

/-- Concrete map parameters exhibiting the slice-index overrun: a 4×4×4 grid
at resolution 1, 3 prediction slices one second apart, risk threshold 1/2. -/
def overrunParams : MapParams :=
  { lenVox := 4, widVox := 4, heiVox := 4, predTimes := 3
    resolution := 1, timeResolution := 1, riskThreshold := 1/2 }

/-- Concrete map state for the overrun input: map centered at the origin, an
all-zero risk tensor, a one-offset inflation kernel. -/
def overrunState : FakeMapState :=
  { pose := v3zero, riskMaps := fun _ _ => 0, kernel := [(0, 0, 0)] }

end FakeParticleRiskVoxel

/-- Claim C5 (code bug in the source): the double-time query does not keep its
slice indices within `[0, PREDICTION_TIMES - 1]`. At the in-range query
position (0,0,0) with `dt = PREDICTION_TIMES · Δt_pred = 3`, the computed
(clamped) ceiling slice index equals `PREDICTION_TIMES` itself — the clamp in
the source caps at `PREDICTION_TIMES`, one past the last stored slice — and
the query dereferences `risk_maps_[idx][PREDICTION_TIMES]`, an out-of-bounds
read with no defined result. -/
theorem getClearOcccupancyD_slice_index_overrun :
    ((FakeParticleRiskVoxel.overrunParams.predTimes : ℤ) - 1 <
        FakeParticleRiskVoxel.ceilSlice FakeParticleRiskVoxel.overrunParams 3 ∧
      FakeParticleRiskVoxel.ceilSlice FakeParticleRiskVoxel.overrunParams 3 =
        (FakeParticleRiskVoxel.overrunParams.predTimes : ℤ)) ∧
    FakeParticleRiskVoxel.getClearOcccupancyD FakeParticleRiskVoxel.overrunParams
      FakeParticleRiskVoxel.overrunState v3zero 3 = none := by
  have hceil3 : FakeParticleRiskVoxel.ceilSlice FakeParticleRiskVoxel.overrunParams 3 = 3 := by
    simp only [FakeParticleRiskVoxel.ceilSlice, FakeParticleRiskVoxel.clampSlice,
      FakeParticleRiskVoxel.overrunParams]
    norm_num
  have hfloor3 : FakeParticleRiskVoxel.floorSlice FakeParticleRiskVoxel.overrunParams 3 = 3 := by
    simp only [FakeParticleRiskVoxel.floorSlice, FakeParticleRiskVoxel.clampSlice,
      FakeParticleRiskVoxel.overrunParams]
    norm_num
  have hrel : FakeParticleRiskVoxel.relVoxel FakeParticleRiskVoxel.overrunParams
      FakeParticleRiskVoxel.overrunState v3zero = (2, 2, 2) := by
    simp only [FakeParticleRiskVoxel.relVoxel, FakeParticleRiskVoxel.getVoxelRelIndex,
      FakeParticleRiskVoxel.localRangeX, FakeParticleRiskVoxel.localRangeY,
      FakeParticleRiskVoxel.localRangeZ, FakeParticleRiskVoxel.overrunParams,
      FakeParticleRiskVoxel.overrunState, v3zero]
    norm_num
  have hT3 : FakeParticleRiskVoxel.getClearOcccupancyT FakeParticleRiskVoxel.overrunParams
      FakeParticleRiskVoxel.overrunState v3zero 3 = none := by
    unfold FakeParticleRiskVoxel.getClearOcccupancyT
    rw [hrel]
    decide
  refine ⟨⟨?_, ?_⟩, ?_⟩
  · rw [hceil3]; decide
  · rw [hceil3]; decide
  · unfold FakeParticleRiskVoxel.getClearOcccupancyD
    rw [hceil3, hfloor3, hT3]

namespace FakeParticleRiskVoxel

/-- A query position strictly outside the map's local update range around the
center `c` on at least one axis. -/
def strictlyOutside (P : MapParams) (c pos : V3) : Prop :=
  localRangeX P < |pos.1 - c.1| ∨ localRangeY P < |pos.2.1 - c.2.1| ∨
  localRangeZ P < |pos.2.2 - c.2.2|

/-- A coordinate strictly beyond the half range lands on a voxel coordinate
outside `[0, L)`: above the band the floor is at least `L`, below it the
floor is negative. -/
theorem floor_out_of_band (L : ℕ) (ρ x r : ℚ) (hρ : 0 < ρ) (hr : 2 * r = L * ρ)
    (hx : r < |x|) : ⌊(x + r) / ρ⌋ < 0 ∨ (L : ℤ) ≤ ⌊(x + r) / ρ⌋ := by
  rcases lt_abs.mp hx with h | h
  · right
    rw [Int.le_floor]
    push_cast
    rw [le_div_iff₀ hρ]
    linarith
  · left
    rw [Int.floor_lt]
    push_cast
    rw [div_lt_iff₀ hρ]
    linarith

/-- The voxel-range test fails whenever one coordinate violates its bound. -/
theorem isInRangeI_false_cases (P : MapParams) (v : ℤ × ℤ × ℤ)
    (h : v.1 < 0 ∨ (P.lenVox : ℤ) ≤ v.1 ∨ v.2.1 < 0 ∨ (P.widVox : ℤ) ≤ v.2.1 ∨
        v.2.2 < 0 ∨ (P.heiVox : ℤ) ≤ v.2.2) :
    isInRangeI P v = false := by
  simp only [isInRangeI, Bool.and_eq_false_iff, decide_eq_false_iff_not, not_le, not_lt]
  omega

end FakeParticleRiskVoxel

/-- Claim C6: a query at a position strictly outside the map's local range
returns the distinguished out-of-range result -1 — never the default free
or occupied answer — for the integer-time query at every slice and for the
double-time query at every offset. The hypotheses record that the grid side
counts are even (so the two half ranges tile the grid exactly) and the
resolution is positive. The voxel-coordinate helpers of the fake map header
are modelled from the spec (the header is not among the staged sources). -/
theorem getClearOcccupancy_out_of_range_returns_neg_one
    (P : FakeParticleRiskVoxel.MapParams) (m : FakeParticleRiskVoxel.FakeMapState)
    (pos : V3)
    (hres : 0 < P.resolution)
    (hLx : 2 * (P.lenVox / 2) = P.lenVox)
    (hLy : 2 * (P.widVox / 2) = P.widVox)
    (hLz : 2 * (P.heiVox / 2) = P.heiVox)
    (hout : FakeParticleRiskVoxel.strictlyOutside P m.pose pos) :
    (∀ t : ℤ, FakeParticleRiskVoxel.getClearOcccupancyT P m pos t = some (-1)) ∧
    (∀ dt : ℚ, FakeParticleRiskVoxel.getClearOcccupancyD P m pos dt = some (-1)) := by
  have hvx : (FakeParticleRiskVoxel.relVoxel P m pos).1 =
      ⌊(pos.1 - m.pose.1 + FakeParticleRiskVoxel.localRangeX P) / P.resolution⌋ := rfl
  have hvy : (FakeParticleRiskVoxel.relVoxel P m pos).2.1 =
      ⌊(pos.2.1 - m.pose.2.1 + FakeParticleRiskVoxel.localRangeY P) / P.resolution⌋ := rfl
  have hvz : (FakeParticleRiskVoxel.relVoxel P m pos).2.2 =
      ⌊(pos.2.2 - m.pose.2.2 + FakeParticleRiskVoxel.localRangeZ P) / P.resolution⌋ := rfl
  have hfalse : FakeParticleRiskVoxel.isInRangeI P (FakeParticleRiskVoxel.relVoxel P m pos)
      = false := by
    apply FakeParticleRiskVoxel.isInRangeI_false_cases
    rcases hout with h | h | h
    · have h2r : 2 * FakeParticleRiskVoxel.localRangeX P = (P.lenVox : ℚ) * P.resolution := by
        calc 2 * FakeParticleRiskVoxel.localRangeX P
            = ((2 * (P.lenVox / 2) : ℕ) : ℚ) * P.resolution := by
              unfold FakeParticleRiskVoxel.localRangeX; push_cast; ring
          _ = (P.lenVox : ℚ) * P.resolution := by rw [hLx]
      have hb := FakeParticleRiskVoxel.floor_out_of_band P.lenVox P.resolution
        (pos.1 - m.pose.1) (FakeParticleRiskVoxel.localRangeX P) hres h2r h
      rw [← hvx] at hb
      tauto
    · have h2r : 2 * FakeParticleRiskVoxel.localRangeY P = (P.widVox : ℚ) * P.resolution := by
        calc 2 * FakeParticleRiskVoxel.localRangeY P
            = ((2 * (P.widVox / 2) : ℕ) : ℚ) * P.resolution := by
              unfold FakeParticleRiskVoxel.localRangeY; push_cast; ring
          _ = (P.widVox : ℚ) * P.resolution := by rw [hLy]
      have hb := FakeParticleRiskVoxel.floor_out_of_band P.widVox P.resolution
        (pos.2.1 - m.pose.2.1) (FakeParticleRiskVoxel.localRangeY P) hres h2r h
      rw [← hvy] at hb
      tauto
    · have h2r : 2 * FakeParticleRiskVoxel.localRangeZ P = (P.heiVox : ℚ) * P.resolution := by
        calc 2 * FakeParticleRiskVoxel.localRangeZ P
            = ((2 * (P.heiVox / 2) : ℕ) : ℚ) * P.resolution := by
              unfold FakeParticleRiskVoxel.localRangeZ; push_cast; ring
          _ = (P.heiVox : ℚ) * P.resolution := by rw [hLz]
      have hb := FakeParticleRiskVoxel.floor_out_of_band P.heiVox P.resolution
        (pos.2.2 - m.pose.2.2) (FakeParticleRiskVoxel.localRangeZ P) hres h2r h
      rw [← hvz] at hb
      tauto
  have hT : ∀ t : ℤ, FakeParticleRiskVoxel.getClearOcccupancyT P m pos t = some (-1) :=
    fun t => (FakeParticleRiskVoxel.getClearOcccupancyT_neg_one_iff P m pos t).mpr hfalse
  refine ⟨hT, fun dt => ?_⟩
  unfold FakeParticleRiskVoxel.getClearOcccupancyD
  rw [hT, hT]
  simp

/-- Witness for claim C6: on the concrete 4×4×4 map centered at the origin,
the position (100, 0, 0) is strictly outside the half range 2, and both query
overloads return -1 there. -/
theorem getClearOcccupancy_out_of_range_witness :
    (0 : ℚ) < FakeParticleRiskVoxel.overrunParams.resolution ∧
    FakeParticleRiskVoxel.strictlyOutside FakeParticleRiskVoxel.overrunParams
      FakeParticleRiskVoxel.overrunState.pose (100, 0, 0) ∧
    FakeParticleRiskVoxel.getClearOcccupancyT FakeParticleRiskVoxel.overrunParams
      FakeParticleRiskVoxel.overrunState (100, 0, 0) 0 = some (-1) ∧
    FakeParticleRiskVoxel.getClearOcccupancyD FakeParticleRiskVoxel.overrunParams
      FakeParticleRiskVoxel.overrunState (100, 0, 0) (7/2) = some (-1) := by
  have hout : FakeParticleRiskVoxel.strictlyOutside FakeParticleRiskVoxel.overrunParams
      FakeParticleRiskVoxel.overrunState.pose (100, 0, 0) := by
    left
    norm_num [FakeParticleRiskVoxel.localRangeX, FakeParticleRiskVoxel.overrunParams,
      FakeParticleRiskVoxel.overrunState, v3zero]
  have hmain := getClearOcccupancy_out_of_range_returns_neg_one
    FakeParticleRiskVoxel.overrunParams FakeParticleRiskVoxel.overrunState (100, 0, 0)
    (by norm_num [FakeParticleRiskVoxel.overrunParams]) (by decide) (by decide) (by decide) hout
  exact ⟨by norm_num [FakeParticleRiskVoxel.overrunParams], hout, hmain.1 0, hmain.2 (7/2)⟩

namespace Planner

/-- Result of one solver call of `traj_opt::CorridorMiniSnap` (`optimize` or
`reOptimize`). Modelled from the spec: the optimizer itself is not among the
staged sources; per the catch sites in `OptimizationInCorridors`
(`catch (int e)`) and the spec's `OptimizerCrashed`, a crash is an `int`
exception (`Except.error e`), otherwise the call returns whether a solution
was found. -/
abbrev SolverCall : Type := Except ℤ Bool

/-- Free outcomes of the solver and corridor checks one
`OptimizationInCorridors` run observes: the initial `optimize` call, the k-th
`reOptimize` call, and the k-th evaluation of `isCorridorSatisfied`. -/
structure OptOracle where
  optimizeResult : SolverCall
  reopt : ℕ → SolverCall
  satisfied : ℕ → Bool

/-- What a `return` of the routine produced: a defined `bool`, or `undef` when
control falls off the end of the non-void function — the path after the
while-loop holds only the `/** Publish the trajectory */` TODO comment and no
return statement. -/
inductive RunRet where
  | ret (b : Bool)
  | undef
deriving Repr, DecidableEq

/-- Observable outcome of one `OptimizationInCorridors` run: what the function
returned and how many times `reOptimize` was invoked. -/
structure RunOut where
  result : RunRet
  reoptCalls : ℕ
deriving Repr, DecidableEq

/-- The `while (!isCorridorSatisfied(...) && i++ < I)` loop of
`OptimizationInCorridors` (multi_planning.cpp lines 228-247), entered with
`i = 0`, `I = 10`. `k` counts the `reOptimize` calls made so far (equal to
the source's `i` whenever the loop body is entered) and `budget` is the
number of iterations the cap still allows, `10 - i`. Each round: when the
corridor is satisfied the loop exits and the function runs off its end
(`undef`); otherwise, when the cap allows another round, `reOptimize` runs
inside try/catch — a caught `int` exception or an unsolved result makes the
function return false — and on success the loop repeats; when the cap is
exhausted the loop exits and the function again runs off its end. The run is
wrapped in `Except ℤ` so an uncaught exception, were there one, would
surface as `Except.error`. -/
def optLoop (o : OptOracle) : ℕ → ℕ → Except ℤ RunOut
  | 0, k => Except.ok ⟨.undef, k⟩
  | b + 1, k =>
    if o.satisfied k then Except.ok ⟨.undef, k⟩
    else
      match o.reopt k with
      | .error _ => Except.ok ⟨.ret false, k + 1⟩
      | .ok false => Except.ok ⟨.ret false, k + 1⟩
      | .ok true => optLoop o b (k + 1)

/-- Translation of `Planner::OptimizationInCorridors` (multi_planning.cpp
lines 191-251): the initial `optimize` runs inside try/catch — a caught `int`
exception returns false, an unsolved result returns false — and then the
iterative tightening loop runs with cap `I = 10`. -/
def OptimizationInCorridors (o : OptOracle) : Except ℤ RunOut :=
  match o.optimizeResult with
  | .error _ => Except.ok ⟨.ret false, 0⟩
  | .ok false => Except.ok ⟨.ret false, 0⟩
  | .ok true => optLoop o 10 0

/-- An oracle on which the corridor check never passes while every solver call
succeeds: the loop runs to its cap. -/
def allUnsatOracle : OptOracle :=
  { optimizeResult := Except.ok true, reopt := fun _ => Except.ok true
    satisfied := fun _ => false }

/-- Externally visible actions of one `Planner::TrajTimerCallback` cycle. -/
structure CycleOut where
  ranSearch : Bool
  clearedFailureVisuals : Bool
  corridorsBuilt : Bool
  corridorPublished : Bool
  optimizationInvoked : Bool
  optObservedSuccess : Option Bool
  trajectoryPublished : Bool
deriving Repr, DecidableEq

/-- The caller's view of the value `OptimizationInCorridors` returned
(`bool is_trajectory_optimized = OptimizationInCorridors(...)`,
multi_planning.cpp line 567): `none` when the routine fell off its end, so
the received `bool` has no defined value. -/
def observedReturn : Except ℤ RunOut → Option Bool
  | .ok ⟨.ret b, _⟩ => some b
  | _ => none

/-- Translation of `Planner::TrajTimerCallback` (multi_planning.cpp lines
258-577) at the granularity of its externally visible actions. `riskUpdated`
is `_is_future_risk_updated` (the early return of line 263), `n` the length
of the A* result `astar_rst`, and the branch of line 433 separates the
degenerate-path failure (empty failure visuals only) from the full cycle
(corridor construction, corridor publication, optimization). The trajectory
publisher is never exercised: the publication step of
`OptimizationInCorridors` is an unimplemented TODO. -/
def TrajTimerCallback (riskUpdated : Bool) (n : ℕ) (o : OptOracle) : CycleOut :=
  if !riskUpdated then
    { ranSearch := false, clearedFailureVisuals := false, corridorsBuilt := false
      corridorPublished := false, optimizationInvoked := false
      optObservedSuccess := none, trajectoryPublished := false }
  else if n ≤ 1 ∨ 10 ≤ n then
    { ranSearch := true, clearedFailureVisuals := true, corridorsBuilt := false
      corridorPublished := false, optimizationInvoked := false
      optObservedSuccess := none, trajectoryPublished := false }
  else
    { ranSearch := true, clearedFailureVisuals := false, corridorsBuilt := true
      corridorPublished := true, optimizationInvoked := true
      optObservedSuccess := observedReturn (OptimizationInCorridors o)
      trajectoryPublished := false }

/-- The tightening loop always delivers a value (no exception escapes it). -/
theorem optLoop_total (o : OptOracle) :
    ∀ (budget k : ℕ), ∃ ro : RunOut, optLoop o budget k = Except.ok ro := by
  intro budget
  induction budget with
  | zero =>
    intro k
    exact ⟨_, rfl⟩
  | succ b ih =>
    intro k
    unfold optLoop
    split
    · exact ⟨_, rfl⟩
    · rcases hr : o.reopt k with e | b'
      · exact ⟨_, rfl⟩
      · cases b'
        · exact ⟨_, rfl⟩
        · exact ih (k + 1)

/-- Bound and call discipline of the tightening loop: starting at call count
`k` with the given budget, the number of `reOptimize` calls on exit is at
most `k + budget`, never decreases below `k`, and every call `j` made from
`k` on happened only after `isCorridorSatisfied` returned false at `j`. -/
theorem optLoop_spec (o : OptOracle) :
    ∀ (budget k : ℕ) (ro : RunOut), optLoop o budget k = Except.ok ro →
      ro.reoptCalls ≤ k + budget ∧
      ∀ j : ℕ, k ≤ j → j < ro.reoptCalls → o.satisfied j = false := by
  intro budget
  induction budget with
  | zero =>
    intro k ro h
    have hro : ro = ⟨.undef, k⟩ := (Except.ok.inj h).symm
    subst hro
    refine ⟨Nat.le_refl _, fun j hj1 hj2 => ?_⟩
    simp only at hj2
    omega
  | succ b ih =>
    intro k ro h
    unfold optLoop at h
    split at h
    · have hro : ro = ⟨.undef, k⟩ := (Except.ok.inj h).symm
      subst hro
      refine ⟨Nat.le_add_right _ _, fun j hj1 hj2 => ?_⟩
      simp only at hj2
      omega
    · next hsat =>
      have hsatk : o.satisfied k = false := by
        simpa using hsat
      rcases hr : o.reopt k with e | b'
      · rw [hr] at h
        have hro : ro = ⟨.ret false, k + 1⟩ := (Except.ok.inj h).symm
        subst hro
        refine ⟨by simp only; omega, fun j hj1 hj2 => ?_⟩
        simp only at hj2
        have hjk : j = k := by omega
        rw [hjk]
        exact hsatk
      · rw [hr] at h
        cases b'
        · have hro : ro = ⟨.ret false, k + 1⟩ := (Except.ok.inj h).symm
          subst hro
          refine ⟨by simp only; omega, fun j hj1 hj2 => ?_⟩
          simp only at hj2
          have hjk : j = k := by omega
          rw [hjk]
          exact hsatk
        · rcases ih (k + 1) ro h with ⟨h1, h2⟩
          refine ⟨by omega, fun j hj1 hj2 => ?_⟩
          rcases Nat.eq_or_lt_of_le hj1 with rfl | hlt
          · exact hsatk
          · exact h2 j hlt hj2

end Planner

/-- Claim C8 (code bug in the source): in the iterative tightening loop,
`reOptimize` runs only while `isCorridorSatisfied` is false and at most 10
times (the loop is bounded, hence terminates — `OptimizationInCorridors` is a
total function). But when the corridor is still unsatisfied once the cap is
reached no failure is reported: on the all-unsatisfied oracle the routine
reaches the end of the non-void function without a return statement, so the
run ends with the `undef` marker, not with a returned false. -/
theorem optimizationInCorridors_cap_and_missing_return :
    (∀ (o : Planner.OptOracle) (ro : Planner.RunOut),
        Planner.OptimizationInCorridors o = Except.ok ro →
        ro.reoptCalls ≤ 10 ∧ ∀ j : ℕ, j < ro.reoptCalls → o.satisfied j = false) ∧
    Planner.OptimizationInCorridors Planner.allUnsatOracle =
      Except.ok ⟨Planner.RunRet.undef, 10⟩ := by
  constructor
  · intro o ro h
    unfold Planner.OptimizationInCorridors at h
    rcases ho : o.optimizeResult with e | b
    · rw [ho] at h
      have hro : ro = ⟨Planner.RunRet.ret false, 0⟩ := (Except.ok.inj h).symm
      subst hro
      refine ⟨by simp, fun j hj => ?_⟩
      simp only at hj
      omega
    · rw [ho] at h
      cases b
      · have hro : ro = ⟨Planner.RunRet.ret false, 0⟩ := (Except.ok.inj h).symm
        subst hro
        refine ⟨by simp, fun j hj => ?_⟩
        simp only at hj
        omega
      · rcases Planner.optLoop_spec o 10 0 ro h with ⟨h1, h2⟩
        exact ⟨by omega, fun j hj => h2 j (Nat.zero_le j) hj⟩
  · rfl

/-- Claim C9: every solver exception (an `int`, per the catch sites and the
spec's `OptimizerCrashed`) raised by the initial `optimize` call or by any
`reOptimize` call is caught inside `OptimizationInCorridors` and turned into
an ordinary false return; an unsolved result likewise returns false; no
exception ever escapes the routine; and the supervisor treats the failed
cycle non-fatally — `TrajTimerCallback` completes, observing false and only
warning. -/
theorem optimizationInCorridors_catches_solver_failures :
    ∀ o : Planner.OptOracle,
      (∃ ro : Planner.RunOut, Planner.OptimizationInCorridors o = Except.ok ro) ∧
      (∀ e : ℤ, o.optimizeResult = Except.error e →
        Planner.OptimizationInCorridors o = Except.ok ⟨Planner.RunRet.ret false, 0⟩) ∧
      (o.optimizeResult = Except.ok false →
        Planner.OptimizationInCorridors o = Except.ok ⟨Planner.RunRet.ret false, 0⟩) ∧
      (∀ (b k : ℕ) (e : ℤ), o.satisfied k = false → o.reopt k = Except.error e →
        Planner.optLoop o (b + 1) k = Except.ok ⟨Planner.RunRet.ret false, k + 1⟩) ∧
      (∀ e : ℤ, o.optimizeResult = Except.error e →
        (Planner.TrajTimerCallback true 5 o).optObservedSuccess = some false) := by
  intro o
  have hcrash : ∀ e : ℤ, o.optimizeResult = Except.error e →
      Planner.OptimizationInCorridors o = Except.ok ⟨Planner.RunRet.ret false, 0⟩ := by
    intro e he
    unfold Planner.OptimizationInCorridors
    rw [he]
  refine ⟨?_, hcrash, ?_, ?_, ?_⟩
  · unfold Planner.OptimizationInCorridors
    rcases ho : o.optimizeResult with e | b
    · exact ⟨_, rfl⟩
    · cases b
      · exact ⟨_, rfl⟩
      · exact Planner.optLoop_total o 10 0
  · intro he
    unfold Planner.OptimizationInCorridors
    rw [he]
  · intro b k e hs hre
    unfold Planner.optLoop
    rw [hs, hre]
    simp
  · intro e he
    have hrun := hcrash e he
    simp [Planner.TrajTimerCallback, Planner.observedReturn, hrun]

/-- Claim C7: a planning cycle whose A* result has at most 1 node or at least
10 nodes is treated as a degenerate-path failure — only the empty failure
visuals are emitted, no corridor is built or published, the optimizer is
never invoked — while a result of 2 to 9 nodes proceeds to corridor
generation and optimization. In either case no trajectory message is
published by the cycle (the publication step of `OptimizationInCorridors` is
an unimplemented TODO). -/
theorem trajTimer_degenerate_path_dichotomy :
    ∀ (n : ℕ) (o : Planner.OptOracle),
      ((n ≤ 1 ∨ 10 ≤ n) →
        Planner.TrajTimerCallback true n o =
          { ranSearch := true, clearedFailureVisuals := true, corridorsBuilt := false
            corridorPublished := false, optimizationInvoked := false
            optObservedSuccess := none, trajectoryPublished := false }) ∧
      (2 ≤ n → n ≤ 9 →
        (Planner.TrajTimerCallback true n o).corridorsBuilt = true ∧
        (Planner.TrajTimerCallback true n o).corridorPublished = true ∧
        (Planner.TrajTimerCallback true n o).optimizationInvoked = true ∧
        (Planner.TrajTimerCallback true n o).clearedFailureVisuals = false) ∧
      (Planner.TrajTimerCallback true n o).trajectoryPublished = false := by
  intro n o
  refine ⟨fun h => ?_, fun h2 h9 => ?_, ?_⟩
  · simp [Planner.TrajTimerCallback, h]
  · have hn : ¬ (n ≤ 1 ∨ 10 ≤ n) := by omega
    simp [Planner.TrajTimerCallback, hn]
  · by_cases h : n ≤ 1 ∨ 10 ≤ n <;> simp [Planner.TrajTimerCallback, h]
